import Mathlib

/-!
Shallow embedding of the FlexibleETL chunked export pipeline.

Sources embedded:
- src/strategies/saver_strategy.py : CsvSaver, ExcelSaver, JsonSaver, ParquetSaver
- src/config/config.py             : normalize_compression
- src/etl/etl_base.py              : ETLBase.load, ETLBase._update_metrics, ETLBase.run
- src/modules/decorators.py        : error_handler chain (retry / logging / notification)
- src/modules/notifications.py     : Observer, EmailObserver, TelegramObserver,
                                     NotificationSubject.notify

A pandas DataFrame chunk is modelled as a list of named columns plus a list of
rows of cell values; `chunk.empty` is true when the chunk has no rows.  The
file system is modelled as the content of the single destination path of a
run (`Option` of a format-specific file value).  External library behaviour
that the source relies on is modelled where a claim depends on it:
- pandas ExcelWriter opens (creates or truncates) the destination file when it
  is constructed and saves the workbook when the `with` block exits; pandas
  removes the default sheet from the new workbook, and openpyxl raises
  IndexError("At least one sheet must be visible") when asked to save a
  workbook with no sheets, leaving the just-opened file empty;
- `to_csv` / `to_json` with mode "w" truncate the destination, with mode "a"
  they append; `to_parquet` always rewrites the whole destination file;
- `to_excel(writer, index=False, startrow=r)` writes the column header row at
  row `r` of the sheet and the data rows directly below it.
-/

namespace FlexibleETL

/-- One pandas DataFrame chunk: named columns and rows of cell values. -/
structure DataFrame where
  cols : List String
  rows : List (List String)
deriving Repr, DecidableEq

/-- `chunk.empty`: a chunk with no rows is empty. -/
def DataFrame.empty (df : DataFrame) : Bool := df.rows.isEmpty

/-- Python str.strip(): remove leading and trailing whitespace. -/
def pyStrip (s : String) : String :=
  String.mk (((s.data.dropWhile Char.isWhitespace).reverse.dropWhile Char.isWhitespace).reverse)

/-- Python str.lower() (on the ASCII range the compression values use). -/
def pyLower (s : String) : String :=
  String.mk (s.data.map Char.toLower)

/-- config.py, normalize_compression: None, and any string whose
stripped-and-lowered form is "none", "null" or "", normalize to None;
every other value is returned unchanged. -/
def normalize_compression : Option String → Option String
  | none => none
  | some v =>
      if pyLower (pyStrip v) = "none" ∨ pyLower (pyStrip v) = "null" ∨ pyLower (pyStrip v) = ""
      then none
      else some v

/-- Python truthiness of an optional string: None and "" are falsy. -/
def pyTruthy : Option String → Bool
  | none => false
  | some s => !(s == "")

/-- The sub-list of non-empty chunks of a batch sequence (every saver skips
empty chunks with `continue`). -/
def nonEmptyChunks : List DataFrame → List DataFrame
  | [] => []
  | c :: cs => if c.empty then nonEmptyChunks cs else c :: nonEmptyChunks cs

/-- Row counts of the non-empty chunks, in order. -/
def chunkLens (data : List DataFrame) : List Nat :=
  (nonEmptyChunks data).map (fun c => c.rows.length)

/-- Total number of rows over all non-empty chunks. -/
def totalRows (data : List DataFrame) : Nat := (chunkLens data).sum

/-- All data rows of the non-empty chunks, concatenated in order. -/
def concatRows (data : List DataFrame) : List (List String) :=
  (nonEmptyChunks data).foldr (fun c acc => c.rows ++ acc) []

/-! ## CsvSaver (saver_strategy.py lines 51-86) -/

/-- Mutable loop state of CsvSaver.save: the destination file content (a list
of lines, each a list of cells), the write mode and header flag, the sequence
of values passed to the metrics callback, and the running total. -/
structure CsvState where
  file : Option (List (List String))
  mode : String
  header : Bool
  callbacks : List Nat
  total : Nat
deriving Repr, DecidableEq

/-- `chunk.to_csv(path, mode, header, index=False)`: the resulting file
content.  Mode "w" truncates, mode "a" appends; with `header` a header line
holding the column names precedes the data rows. -/
def to_csv (file : Option (List (List String))) (mode : String) (header : Bool)
    (chunk : DataFrame) : List (List String) :=
  let newLines := (if header then [chunk.cols] else []) ++ chunk.rows
  if mode = "a" then file.getD [] ++ newLines else newLines

/-- One iteration of the CsvSaver loop body: empty chunks are skipped;
otherwise the chunk is written, the callback receives its row count, and
mode/header switch to append-without-header. -/
def csvStep (st : CsvState) (chunk : DataFrame) : CsvState :=
  if chunk.empty then st
  else
    { file := some (to_csv st.file st.mode st.header chunk)
      mode := "a"
      header := false
      callbacks := st.callbacks ++ [chunk.rows.length]
      total := st.total + chunk.rows.length }

/-- CsvSaver.save.  `fs0` is the pre-existing content of the destination
path; `filepath.unlink(missing_ok=True)` removes it before the loop, so the
loop starts from an absent file. -/
def CsvSaver.save (data : List DataFrame) (filepath : String)
    (compression : Option String) (fs0 : Option (List (List String))) : CsvState :=
  let _compression := normalize_compression compression
  let _ := filepath
  let _ := fs0
  data.foldl csvStep { file := none, mode := "w", header := true, callbacks := [], total := 0 }

/-! ## JsonSaver (saver_strategy.py lines 120-144) -/

/-- Mutable loop state of JsonSaver.save; the file content is the list of
records (one JSON line per row). -/
structure JsonState where
  file : Option (List (List String))
  mode : String
  callbacks : List Nat
  total : Nat
deriving Repr, DecidableEq

/-- `chunk.to_json(path, orient=records, lines=True, mode)`: mode "w"
truncates the destination, mode "a" appends one record per row. -/
def to_json (file : Option (List (List String))) (mode : String)
    (chunk : DataFrame) : List (List String) :=
  if mode = "a" then file.getD [] ++ chunk.rows else chunk.rows

/-- One iteration of the JsonSaver loop body. -/
def jsonStep (st : JsonState) (chunk : DataFrame) : JsonState :=
  if chunk.empty then st
  else
    { file := some (to_json st.file st.mode chunk)
      mode := "a"
      callbacks := st.callbacks ++ [chunk.rows.length]
      total := st.total + chunk.rows.length }

/-- JsonSaver.save.  There is no unlink: the pre-existing content `fs0` of
the destination survives until (and unless) the first non-empty chunk is
written with mode "w". -/
def JsonSaver.save (data : List DataFrame) (filepath : String)
    (compression : Option String) (fs0 : Option (List (List String))) : JsonState :=
  let _compression := normalize_compression compression
  let _ := filepath
  data.foldl jsonStep { file := fs0, mode := "w", callbacks := [], total := 0 }

/-! ## ParquetSaver (saver_strategy.py lines 147-158) -/

/-- Mutable loop state of ParquetSaver.save.  `writes` is the trace of
`to_parquet` calls (destination path and chunk written); each call rewrites
the whole destination file, so `file` is the argument of the last call. -/
structure ParquetState where
  file : Option DataFrame
  writes : List (String × DataFrame)
  callbacks : List Nat
  total : Nat
deriving Repr, DecidableEq

/-- One iteration of the ParquetSaver loop body: each non-empty chunk is
written with the single-shot `to_parquet(filepath, ...)`. -/
def parquetStep (filepath : String) (st : ParquetState) (chunk : DataFrame) : ParquetState :=
  if chunk.empty then st
  else
    { file := some chunk
      writes := st.writes ++ [(filepath, chunk)]
      callbacks := st.callbacks ++ [chunk.rows.length]
      total := st.total + chunk.rows.length }

/-- ParquetSaver.save.  The compression value is handed to `to_parquet`
unchanged (no normalization in this strategy); it selects a codec only and
does not affect the saved rows.  There is no unlink of `fs0`. -/
def ParquetSaver.save (data : List DataFrame) (filepath : String)
    (compression : Option String) (fs0 : Option DataFrame) : ParquetState :=
  let _compression := compression
  data.foldl (parquetStep filepath) { file := fs0, writes := [], callbacks := [], total := 0 }

/-! ## ExcelSaver (saver_strategy.py lines 89-117) -/

/-- The state of the destination file of the spreadsheet strategy:
either the empty file left when the writer opened the destination but the
workbook was never saved into it, or a saved workbook holding each
`to_excel` placement (start row and chunk, in call order). -/
inductive ExcelFile where
  | emptyHandle
  | workbook (placements : List (Nat × DataFrame))
deriving Repr, DecidableEq

/-- Mutable loop state inside the ExcelWriter session: the `to_excel`
placements so far, the callback trace, the running `startrow` offset and the
running total.  The source advances `startrow` by `len(chunk)` only. -/
structure ExcelLoopState where
  placements : List (Nat × DataFrame)
  callbacks : List Nat
  startrow : Nat
  total : Nat
deriving Repr, DecidableEq

/-- One iteration of the ExcelSaver loop body:
`chunk.to_excel(writer, sheet_name=Data, index=False, startrow=st.startrow)`
followed by the callback and `startrow += len(chunk)`. -/
def excelLoop (st : ExcelLoopState) (chunk : DataFrame) : ExcelLoopState :=
  if chunk.empty then st
  else
    { placements := st.placements ++ [(st.startrow, chunk)]
      callbacks := st.callbacks ++ [chunk.rows.length]
      startrow := st.startrow + chunk.rows.length
      total := st.total + chunk.rows.length }

/-- Outcome of ExcelSaver.save: the exception it propagates (if any), the
final destination-file state, the callback trace, and the value it returns
(`none` when it raised instead of returning). -/
structure ExcelRun where
  raised : Option String
  file : Option ExcelFile
  callbacks : List Nat
  totalReturned : Option Nat
deriving Repr, DecidableEq

/-- ExcelSaver.save.  The compression guard runs before the writer is
created, so when it fires the destination (`fs0`) is untouched.  Otherwise
`pd.ExcelWriter(filepath, engine=openpyxl)` opens (creates or truncates) the
destination; on exiting the `with` block pandas saves the workbook, and
because pandas removed the default sheet, a session in which no chunk was
written has zero sheets and the save raises
IndexError("At least one sheet must be visible"), leaving the opened file
empty and never returning a total. -/
def ExcelSaver.save (data : List DataFrame) (filepath : String)
    (compression : Option String) (fs0 : Option ExcelFile) : ExcelRun :=
  let comp := normalize_compression compression
  let _ := filepath
  if pyTruthy comp && !(comp == some "infer") then
    { raised := some "Excel format doesn't support compression"
      file := fs0
      callbacks := []
      totalReturned := none }
  else
    let st := data.foldl excelLoop { placements := [], callbacks := [], startrow := 0, total := 0 }
    if st.placements.isEmpty then
      { raised := some "At least one sheet must be visible"
        file := some ExcelFile.emptyHandle
        callbacks := st.callbacks
        totalReturned := none }
    else
      { raised := none
        file := some (ExcelFile.workbook st.placements)
        callbacks := st.callbacks
        totalReturned := some st.total }

/-- Sheet cells written by `chunk.to_excel(writer, index=False, startrow)`:
the header row at `startrow` and one row per data row below it, across the
columns of the chunk. -/
def excelCells (startrow : Nat) (df : DataFrame) : List (Nat × Nat) :=
  (List.range (df.rows.length + 1)).foldr
    (fun i acc => ((List.range df.cols.length).map (fun j => (startrow + i, j))) ++ acc) []

/-! ## Metrics, the orchestrator load stage and run (etl_base.py) -/

/-- The mutable RunMetrics the orchestrator owns: the rows-processed counter
and the number of memory-usage samples appended so far (the sampled values
come from the process and are not modelled). -/
structure Metrics where
  rows_processed : Nat
  memory_samples : Nat
deriving Repr, DecidableEq

/-- ETLBase._update_metrics (etl_base.py lines 121-123): adds `rows` to the
counter and appends one memory-usage sample. -/
def update_metrics (m : Metrics) (rows : Nat) : Metrics :=
  { rows_processed := m.rows_processed + rows
    memory_samples := m.memory_samples + 1 }

/-- Effect on the metrics of the sequence of callback invocations a saver
performed, applied in invocation order. -/
def applyCallbacks (m : Metrics) (calls : List Nat) : Metrics :=
  calls.foldl update_metrics m

/-- The format identifiers registered in the strategy map
(containers.py: csv, xlsx, json, parquet). -/
inductive Format
  | csv
  | xlsx
  | json
  | parquet
deriving Repr, DecidableEq

/-- The destination-file state after a run, tagged by format. -/
inductive FileData where
  | csvF (lines : List (List String))
  | xlsxF (f : ExcelFile)
  | jsonF (records : List (List String))
  | parquetF (df : DataFrame)
deriving Repr, DecidableEq

/-- The error message of `raise ValueError("Нет данных для сохранения")`
in ETLBase.load (the "no data to save" fatal error). -/
def noDataError : String := "Нет данных для сохранения"

/-- Outcome of ETLBase.load: the exception it propagates (if any), the
destination-file state, and the metrics after the load. -/
structure LoadOutcome where
  raised : Option String
  file : Option FileData
  metrics : Metrics
deriving Repr, DecidableEq

/-- ETLBase.load (etl_base.py lines 105-119): resolves the strategy for the
format, derives a fresh timestamp-based destination (so the path holds no
pre-existing file: the savers start from `none`), and calls
`saver.save(data, filepath, compression, metrics_callback=self._update_metrics)`
-- the strategy always receives the internal `_update_metrics` bound method
(hence the metrics evolve by `applyCallbacks _ update_metrics`), while the
`metrics_callback` parameter of load itself is never read.  If the
strategy raised, that exception propagates; otherwise a zero total raises
ValueError("Нет данных для сохранения"). -/
def ETLBase.load (fmt : Format) (data : List DataFrame) (filepath : String)
    (compression : Option String) (m0 : Metrics)
    (metrics_callback : Option (Nat → Metrics → Metrics)) : LoadOutcome :=
  let _ := metrics_callback
  match fmt with
  | .csv =>
    let st := CsvSaver.save data filepath compression none
    { raised := if st.total = 0 then some noDataError else none
      file := st.file.map FileData.csvF
      metrics := applyCallbacks m0 st.callbacks }
  | .xlsx =>
    let r := ExcelSaver.save data filepath compression none
    { raised :=
        match r.raised with
        | some e => some e
        | none => if r.totalReturned = some 0 then some noDataError else none
      file := r.file.map FileData.xlsxF
      metrics := applyCallbacks m0 r.callbacks }
  | .json =>
    let st := JsonSaver.save data filepath compression none
    { raised := if st.total = 0 then some noDataError else none
      file := st.file.map FileData.jsonF
      metrics := applyCallbacks m0 st.callbacks }
  | .parquet =>
    let st := ParquetSaver.save data filepath compression none
    { raised := if st.total = 0 then some noDataError else none
      file := st.file.map FileData.parquetF
      metrics := applyCallbacks m0 st.callbacks }

/-- The callback trace a format strategy produces on a batch sequence. -/
def strategyCallbacks (fmt : Format) (data : List DataFrame) (filepath : String)
    (compression : Option String) : List Nat :=
  match fmt with
  | .csv => (CsvSaver.save data filepath compression none).callbacks
  | .xlsx => (ExcelSaver.save data filepath compression none).callbacks
  | .json => (JsonSaver.save data filepath compression none).callbacks
  | .parquet => (ParquetSaver.save data filepath compression none).callbacks

/-- The total a format strategy returns on a batch sequence (`none` when the
strategy raises instead of returning). -/
def strategyReturn (fmt : Format) (data : List DataFrame) (filepath : String)
    (compression : Option String) : Option Nat :=
  match fmt with
  | .csv => some (CsvSaver.save data filepath compression none).total
  | .xlsx => (ExcelSaver.save data filepath compression none).totalReturned
  | .json => some (JsonSaver.save data filepath compression none).total
  | .parquet => some (ParquetSaver.save data filepath compression none).total

/-! ## Error-handling decorators (decorators.py) -/

/-- RetryDecorator.handle with the default retries=0 used at every call
site: a single attempt whose exception, if any, is re-raised. -/
def RetryDecorator.handle (r : Except String α) : Except String α := r

/-- LoggingDecorator.handle (decorators.py lines 71-89): on an exception it
logs the message and re-raises; the result is unchanged. -/
def LoggingDecorator.handle (r : Except String α) : Except String α :=
  match r with
  | .error e => .error e
  | .ok a => .ok a

/-- NotificationDecorator.handle: on an exception it sends a notification
and re-raises; the result is unchanged. -/
def NotificationDecorator.handle (r : Except String α) : Except String α :=
  match r with
  | .error e => .error e
  | .ok a => .ok a

/-- error_handler: the chain retry -> logging -> notification applied to a
call result; every layer re-raises, so the observable result is preserved. -/
def error_handler (r : Except String α) : Except String α :=
  NotificationDecorator.handle (LoggingDecorator.handle (RetryDecorator.handle r))

deriving instance DecidableEq for Except

/-- What a caller of ETLBase.run observes: the propagated result, whether
`_send_report` was reached, and whether `_log_metrics` was reached. -/
structure RunOutcome where
  result : Except String Unit
  reportAttempted : Bool
  metricsLogged : Bool
deriving Repr, DecidableEq

/-- ETLBase.run (etl_base.py lines 63-84): `try: extract; transform; load`
with `finally: self._send_report(); self._log_metrics()`.  `body` is the
combined result of the try block; `sendReport` the result of the undecorated
`_send_report` body.  `_send_report` is wrapped in `error_handler`, which
re-raises, and under Python semantics an exception leaving the `finally`
block replaces the in-flight exception of the try block and skips the
statements after it (`_log_metrics`).  `_log_metrics` itself only formats
and logs numbers and raises nothing. -/
def ETLBase.run (body : Except String Unit) (sendReport : Except String Unit) : RunOutcome :=
  let report := error_handler sendReport
  match report with
  | .error e =>
      { result := error_handler (Except.error e)
        reportAttempted := true
        metricsLogged := false }
  | .ok _ =>
      { result := error_handler body
        reportAttempted := true
        metricsLogged := true }

/-! ## Notifications (notifications.py) -/

/-- The observers of notifications.py.  `base` is the Observer interface
itself, whose `update` raises NotImplementedError.  The channel observers
carry whether their environment configuration is complete
(`all(config.values())`) and whether the delivery attempt inside their
`try` block would succeed. -/
inductive Observer where
  | base
  | email (configComplete : Bool) (sendOk : Bool)
  | telegram (configComplete : Bool) (sendOk : Bool)
deriving Repr, DecidableEq

/-- The channel handlers are the email and Telegram observers. -/
def Observer.isChannel : Observer → Bool
  | .base => false
  | .email _ _ => true
  | .telegram _ _ => true

/-- Observer.update.  The base interface raises NotImplementedError.  The
email and Telegram observers first check configuration completeness and
return False without raising when it is incomplete; the delivery attempt is
wrapped in `try ... except Exception: return False`, so it returns a boolean
and never raises. -/
def Observer.update : Observer → Except String Bool
  | .base => .error "NotImplementedError"
  | .email configComplete sendOk =>
      if !configComplete then .ok false
      else if sendOk then .ok true else .ok false
  | .telegram configComplete sendOk =>
      if !configComplete then .ok false
      else if sendOk then .ok true else .ok false

/-- Outcome of NotificationSubject.notify: the observers whose `update` was
invoked (in attachment order), the booleans they returned, and the exception
that escaped the dispatch loop, if any. -/
structure NotifyOutcome where
  invoked : List Observer
  results : List Bool
  raised : Option String
deriving Repr, DecidableEq

/-- NotificationSubject.notify (notifications.py lines 120-135):
`for observer in self._observers: observer.update(message, **kwargs)` --
the loop has no exception handling of its own, so an exception from an
`update` stops the loop and propagates. -/
def NotificationSubject.notify : List Observer → NotifyOutcome
  | [] => { invoked := [], results := [], raised := none }
  | o :: os =>
    match o.update with
    | .error e => { invoked := [o], results := [], raised := some e }
    | .ok b =>
      let rest := NotificationSubject.notify os
      { invoked := o :: rest.invoked, results := b :: rest.results, raised := rest.raised }

/-- The one-row chunk of the two-batch spec scenario: rows `[{id:1,name:a}]`. -/
def dfA : DataFrame := { cols := ["id", "name"], rows := [["1", "a"]] }

/-- The one-row chunk of the two-batch spec scenario: rows `[{id:2,name:b}]`. -/
def dfB : DataFrame := { cols := ["id", "name"], rows := [["2", "b"]] }

/-- A chunk with the scenario columns and zero rows. -/
def dfEmpty : DataFrame := { cols := ["id", "name"], rows := [] }

/-! ## Helper lemmas -/

theorem to_csv_w (file : Option (List (List String))) (header : Bool) (chunk : DataFrame) :
    to_csv file "w" header chunk = (if header then [chunk.cols] else []) ++ chunk.rows := by
  unfold to_csv
  rw [if_neg (by decide)]

theorem to_csv_a (file : Option (List (List String))) (header : Bool) (chunk : DataFrame) :
    to_csv file "a" header chunk
      = file.getD [] ++ ((if header then [chunk.cols] else []) ++ chunk.rows) := by
  unfold to_csv
  rw [if_pos rfl]

theorem to_json_w (file : Option (List (List String))) (chunk : DataFrame) :
    to_json file "w" chunk = chunk.rows := by
  unfold to_json
  rw [if_neg (by decide)]

theorem to_json_a (file : Option (List (List String))) (chunk : DataFrame) :
    to_json file "a" chunk = file.getD [] ++ chunk.rows := by
  unfold to_json
  rw [if_pos rfl]

theorem nonEmptyChunks_cons_empty (c : DataFrame) (cs : List DataFrame) (hc : c.empty = true) :
    nonEmptyChunks (c :: cs) = nonEmptyChunks cs := by
  simp [nonEmptyChunks, hc]

theorem nonEmptyChunks_cons_ne (c : DataFrame) (cs : List DataFrame) (hc : c.empty = false) :
    nonEmptyChunks (c :: cs) = c :: nonEmptyChunks cs := by
  simp [nonEmptyChunks, hc]

theorem csvStep_empty (st : CsvState) (c : DataFrame) (hc : c.empty = true) :
    csvStep st c = st := by
  simp [csvStep, hc]

theorem csvStep_ne (st : CsvState) (c : DataFrame) (hc : c.empty = false) :
    csvStep st c =
      { file := some (to_csv st.file st.mode st.header c), mode := "a", header := false
        callbacks := st.callbacks ++ [c.rows.length], total := st.total + c.rows.length } := by
  simp [csvStep, hc]

theorem jsonStep_empty (st : JsonState) (c : DataFrame) (hc : c.empty = true) :
    jsonStep st c = st := by
  simp [jsonStep, hc]

theorem jsonStep_ne (st : JsonState) (c : DataFrame) (hc : c.empty = false) :
    jsonStep st c =
      { file := some (to_json st.file st.mode c), mode := "a"
        callbacks := st.callbacks ++ [c.rows.length], total := st.total + c.rows.length } := by
  simp [jsonStep, hc]

theorem parquetStep_empty (fp : String) (st : ParquetState) (c : DataFrame)
    (hc : c.empty = true) : parquetStep fp st c = st := by
  simp [parquetStep, hc]

theorem parquetStep_ne (fp : String) (st : ParquetState) (c : DataFrame)
    (hc : c.empty = false) :
    parquetStep fp st c =
      { file := some c, writes := st.writes ++ [(fp, c)]
        callbacks := st.callbacks ++ [c.rows.length], total := st.total + c.rows.length } := by
  simp [parquetStep, hc]

theorem excelLoop_empty (st : ExcelLoopState) (c : DataFrame) (hc : c.empty = true) :
    excelLoop st c = st := by
  simp [excelLoop, hc]

theorem excelLoop_ne (st : ExcelLoopState) (c : DataFrame) (hc : c.empty = false) :
    excelLoop st c =
      { placements := st.placements ++ [(st.startrow, c)]
        callbacks := st.callbacks ++ [c.rows.length]
        startrow := st.startrow + c.rows.length
        total := st.total + c.rows.length } := by
  simp [excelLoop, hc]

theorem chunkLens_cons_empty (c : DataFrame) (cs : List DataFrame) (hc : c.empty = true) :
    chunkLens (c :: cs) = chunkLens cs := by
  simp [chunkLens, nonEmptyChunks, hc]

theorem chunkLens_cons_ne (c : DataFrame) (cs : List DataFrame) (hc : c.empty = false) :
    chunkLens (c :: cs) = c.rows.length :: chunkLens cs := by
  simp [chunkLens, nonEmptyChunks, hc]

theorem totalRows_cons_empty (c : DataFrame) (cs : List DataFrame) (hc : c.empty = true) :
    totalRows (c :: cs) = totalRows cs := by
  simp [totalRows, chunkLens_cons_empty c cs hc]

theorem totalRows_cons_ne (c : DataFrame) (cs : List DataFrame) (hc : c.empty = false) :
    totalRows (c :: cs) = c.rows.length + totalRows cs := by
  simp [totalRows, chunkLens_cons_ne c cs hc]

theorem concatRows_cons_empty (c : DataFrame) (cs : List DataFrame) (hc : c.empty = true) :
    concatRows (c :: cs) = concatRows cs := by
  simp [concatRows, nonEmptyChunks, hc]

theorem concatRows_cons_ne (c : DataFrame) (cs : List DataFrame) (hc : c.empty = false) :
    concatRows (c :: cs) = c.rows ++ concatRows cs := by
  simp [concatRows, nonEmptyChunks, hc]

theorem csv_foldl_callbacks (data : List DataFrame) :
    ∀ st : CsvState, (data.foldl csvStep st).callbacks = st.callbacks ++ chunkLens data := by
  induction data with
  | nil => intro st; simp [chunkLens, nonEmptyChunks]
  | cons c cs ih =>
    intro st
    cases hc : c.empty with
    | true =>
      rw [List.foldl_cons, csvStep_empty st c hc, ih, chunkLens_cons_empty c cs hc]
    | false =>
      rw [List.foldl_cons, csvStep_ne st c hc, ih, chunkLens_cons_ne c cs hc]
      simp

theorem csv_foldl_total (data : List DataFrame) :
    ∀ st : CsvState, (data.foldl csvStep st).total = st.total + totalRows data := by
  induction data with
  | nil => intro st; simp [totalRows, chunkLens, nonEmptyChunks]
  | cons c cs ih =>
    intro st
    cases hc : c.empty with
    | true =>
      rw [List.foldl_cons, csvStep_empty st c hc, ih, totalRows_cons_empty c cs hc]
    | false =>
      rw [List.foldl_cons, csvStep_ne st c hc, ih, totalRows_cons_ne c cs hc]
      simp [Nat.add_assoc]

theorem csv_foldl_all_empty (data : List DataFrame) (h : nonEmptyChunks data = []) :
    ∀ st : CsvState, data.foldl csvStep st = st := by
  induction data with
  | nil => intro st; rfl
  | cons c cs ih =>
    intro st
    cases hc : c.empty with
    | true =>
      rw [nonEmptyChunks_cons_empty c cs hc] at h
      rw [List.foldl_cons, csvStep_empty st c hc]
      exact ih h st
    | false =>
      rw [nonEmptyChunks_cons_ne c cs hc] at h
      exact absurd h (by simp)

theorem csv_foldl_file_append (data : List DataFrame) :
    ∀ (L : List (List String)) (cbs : List Nat) (t : Nat),
      ((data.foldl csvStep
        { file := some L, mode := "a", header := false, callbacks := cbs, total := t }).file)
        = some (L ++ concatRows data) := by
  induction data with
  | nil => intro L cbs t; simp [concatRows, nonEmptyChunks]
  | cons c cs ih =>
    intro L cbs t
    cases hc : c.empty with
    | true =>
      rw [List.foldl_cons, csvStep_empty _ c hc, ih, concatRows_cons_empty c cs hc]
    | false =>
      rw [List.foldl_cons, csvStep_ne _ c hc]
      rw [show to_csv (some L) "a" false c = L ++ c.rows from by rw [to_csv_a]; simp]
      rw [ih, concatRows_cons_ne c cs hc, List.append_assoc]

theorem csv_foldl_file_init (data : List DataFrame) :
    ∀ c cs, nonEmptyChunks data = c :: cs →
      ((data.foldl csvStep
        { file := none, mode := "w", header := true, callbacks := [], total := 0 }).file)
        = some (c.cols :: concatRows data) := by
  induction data with
  | nil => intro c cs h; simp [nonEmptyChunks] at h
  | cons d ds ih =>
    intro c cs h
    cases hd : d.empty with
    | true =>
      rw [nonEmptyChunks_cons_empty d ds hd] at h
      rw [List.foldl_cons, csvStep_empty _ d hd, ih c cs h, concatRows_cons_empty d ds hd]
    | false =>
      rw [nonEmptyChunks_cons_ne d ds hd] at h
      have hdc : d = c := (List.cons.injEq _ _ _ _ ▸ h).1
      subst hdc
      rw [List.foldl_cons, csvStep_ne _ d hd]
      rw [show to_csv none "w" true d = [d.cols] ++ d.rows from by rw [to_csv_w]; simp]
      rw [csv_foldl_file_append, concatRows_cons_ne d ds hd]
      simp

theorem json_foldl_callbacks (data : List DataFrame) :
    ∀ st : JsonState, (data.foldl jsonStep st).callbacks = st.callbacks ++ chunkLens data := by
  induction data with
  | nil => intro st; simp [chunkLens, nonEmptyChunks]
  | cons c cs ih =>
    intro st
    cases hc : c.empty with
    | true =>
      rw [List.foldl_cons, jsonStep_empty st c hc, ih, chunkLens_cons_empty c cs hc]
    | false =>
      rw [List.foldl_cons, jsonStep_ne st c hc, ih, chunkLens_cons_ne c cs hc]
      simp

theorem json_foldl_total (data : List DataFrame) :
    ∀ st : JsonState, (data.foldl jsonStep st).total = st.total + totalRows data := by
  induction data with
  | nil => intro st; simp [totalRows, chunkLens, nonEmptyChunks]
  | cons c cs ih =>
    intro st
    cases hc : c.empty with
    | true =>
      rw [List.foldl_cons, jsonStep_empty st c hc, ih, totalRows_cons_empty c cs hc]
    | false =>
      rw [List.foldl_cons, jsonStep_ne st c hc, ih, totalRows_cons_ne c cs hc]
      simp [Nat.add_assoc]

theorem json_foldl_all_empty (data : List DataFrame) (h : nonEmptyChunks data = []) :
    ∀ st : JsonState, data.foldl jsonStep st = st := by
  induction data with
  | nil => intro st; rfl
  | cons c cs ih =>
    intro st
    cases hc : c.empty with
    | true =>
      rw [nonEmptyChunks_cons_empty c cs hc] at h
      rw [List.foldl_cons, jsonStep_empty st c hc]
      exact ih h st
    | false =>
      rw [nonEmptyChunks_cons_ne c cs hc] at h
      exact absurd h (by simp)

theorem json_foldl_file_append (data : List DataFrame) :
    ∀ (L : List (List String)) (cbs : List Nat) (t : Nat),
      ((data.foldl jsonStep
        { file := some L, mode := "a", callbacks := cbs, total := t }).file)
        = some (L ++ concatRows data) := by
  induction data with
  | nil => intro L cbs t; simp [concatRows, nonEmptyChunks]
  | cons c cs ih =>
    intro L cbs t
    cases hc : c.empty with
    | true =>
      rw [List.foldl_cons, jsonStep_empty _ c hc, ih, concatRows_cons_empty c cs hc]
    | false =>
      rw [List.foldl_cons, jsonStep_ne _ c hc]
      simp only [to_json_a, Option.getD_some]
      rw [ih, concatRows_cons_ne c cs hc, List.append_assoc]

theorem json_foldl_file_init (data : List DataFrame) :
    ∀ (fs0 : Option (List (List String))) c cs, nonEmptyChunks data = c :: cs →
      ((data.foldl jsonStep
        { file := fs0, mode := "w", callbacks := [], total := 0 }).file)
        = some (concatRows data) := by
  induction data with
  | nil => intro fs0 c cs h; simp [nonEmptyChunks] at h
  | cons d ds ih =>
    intro fs0 c cs h
    cases hd : d.empty with
    | true =>
      rw [nonEmptyChunks_cons_empty d ds hd] at h
      rw [List.foldl_cons, jsonStep_empty _ d hd, ih fs0 c cs h, concatRows_cons_empty d ds hd]
    | false =>
      rw [List.foldl_cons, jsonStep_ne _ d hd]
      simp only [to_json_w]
      rw [json_foldl_file_append, concatRows_cons_ne d ds hd]

theorem parquet_foldl_callbacks (fp : String) (data : List DataFrame) :
    ∀ st : ParquetState,
      (data.foldl (parquetStep fp) st).callbacks = st.callbacks ++ chunkLens data := by
  induction data with
  | nil => intro st; simp [chunkLens, nonEmptyChunks]
  | cons c cs ih =>
    intro st
    cases hc : c.empty with
    | true =>
      rw [List.foldl_cons, parquetStep_empty fp st c hc, ih, chunkLens_cons_empty c cs hc]
    | false =>
      rw [List.foldl_cons, parquetStep_ne fp st c hc, ih, chunkLens_cons_ne c cs hc]
      simp

theorem parquet_foldl_total (fp : String) (data : List DataFrame) :
    ∀ st : ParquetState,
      (data.foldl (parquetStep fp) st).total = st.total + totalRows data := by
  induction data with
  | nil => intro st; simp [totalRows, chunkLens, nonEmptyChunks]
  | cons c cs ih =>
    intro st
    cases hc : c.empty with
    | true =>
      rw [List.foldl_cons, parquetStep_empty fp st c hc, ih, totalRows_cons_empty c cs hc]
    | false =>
      rw [List.foldl_cons, parquetStep_ne fp st c hc, ih, totalRows_cons_ne c cs hc]
      simp [Nat.add_assoc]

theorem parquet_foldl_writes (fp : String) (data : List DataFrame) :
    ∀ st : ParquetState,
      (data.foldl (parquetStep fp) st).writes
        = st.writes ++ (nonEmptyChunks data).map (fun c => (fp, c)) := by
  induction data with
  | nil => intro st; simp [nonEmptyChunks]
  | cons c cs ih =>
    intro st
    cases hc : c.empty with
    | true =>
      rw [List.foldl_cons, parquetStep_empty fp st c hc, ih, nonEmptyChunks_cons_empty c cs hc]
    | false =>
      rw [List.foldl_cons, parquetStep_ne fp st c hc, ih, nonEmptyChunks_cons_ne c cs hc]
      simp

theorem parquet_foldl_all_empty (fp : String) (data : List DataFrame)
    (h : nonEmptyChunks data = []) :
    ∀ st : ParquetState, data.foldl (parquetStep fp) st = st := by
  induction data with
  | nil => intro st; rfl
  | cons c cs ih =>
    intro st
    cases hc : c.empty with
    | true =>
      rw [nonEmptyChunks_cons_empty c cs hc] at h
      rw [List.foldl_cons, parquetStep_empty fp st c hc]
      exact ih h st
    | false =>
      rw [nonEmptyChunks_cons_ne c cs hc] at h
      exact absurd h (by simp)

theorem parquet_foldl_file (fp : String) (data : List DataFrame) :
    ∀ c cs, nonEmptyChunks data = c :: cs →
      ∀ st : ParquetState,
        (data.foldl (parquetStep fp) st).file = (c :: cs).getLast? := by
  induction data with
  | nil => intro c cs h; simp [nonEmptyChunks] at h
  | cons d ds ih =>
    intro c cs h st
    cases hd : d.empty with
    | true =>
      rw [nonEmptyChunks_cons_empty d ds hd] at h
      rw [List.foldl_cons, parquetStep_empty fp st d hd]
      exact ih c cs h st
    | false =>
      rw [nonEmptyChunks_cons_ne d ds hd] at h
      have hdc : d = c := (List.cons.injEq _ _ _ _ ▸ h).1
      have hcs : nonEmptyChunks ds = cs := (List.cons.injEq _ _ _ _ ▸ h).2
      subst hdc
      rw [List.foldl_cons, parquetStep_ne fp st d hd]
      cases hds : nonEmptyChunks ds with
      | nil =>
        rw [hds] at hcs
        subst hcs
        rw [parquet_foldl_all_empty fp ds hds]
        simp
      | cons c2 cs2 =>
        rw [hds] at hcs
        subst hcs
        rw [ih c2 cs2 hds, List.getLast?_cons_cons]

theorem excel_foldl_callbacks (data : List DataFrame) :
    ∀ st : ExcelLoopState, (data.foldl excelLoop st).callbacks = st.callbacks ++ chunkLens data := by
  induction data with
  | nil => intro st; simp [chunkLens, nonEmptyChunks]
  | cons c cs ih =>
    intro st
    cases hc : c.empty with
    | true =>
      rw [List.foldl_cons, excelLoop_empty st c hc, ih, chunkLens_cons_empty c cs hc]
    | false =>
      rw [List.foldl_cons, excelLoop_ne st c hc, ih, chunkLens_cons_ne c cs hc]
      simp

theorem excel_foldl_total (data : List DataFrame) :
    ∀ st : ExcelLoopState, (data.foldl excelLoop st).total = st.total + totalRows data := by
  induction data with
  | nil => intro st; simp [totalRows, chunkLens, nonEmptyChunks]
  | cons c cs ih =>
    intro st
    cases hc : c.empty with
    | true =>
      rw [List.foldl_cons, excelLoop_empty st c hc, ih, totalRows_cons_empty c cs hc]
    | false =>
      rw [List.foldl_cons, excelLoop_ne st c hc, ih, totalRows_cons_ne c cs hc]
      simp [Nat.add_assoc]

theorem excel_foldl_placements_length (data : List DataFrame) :
    ∀ st : ExcelLoopState,
      (data.foldl excelLoop st).placements.length
        = st.placements.length + (nonEmptyChunks data).length := by
  induction data with
  | nil => intro st; simp [nonEmptyChunks]
  | cons c cs ih =>
    intro st
    cases hc : c.empty with
    | true =>
      rw [List.foldl_cons, excelLoop_empty st c hc, ih, nonEmptyChunks_cons_empty c cs hc]
    | false =>
      rw [List.foldl_cons, excelLoop_ne st c hc, ih, nonEmptyChunks_cons_ne c cs hc]
      simp
      omega

theorem error_handler_id (r : Except String α) : error_handler r = r := by
  cases r <;> rfl

theorem applyCallbacks_rows (calls : List Nat) :
    ∀ m : Metrics, (applyCallbacks m calls).rows_processed = m.rows_processed + calls.sum := by
  induction calls with
  | nil => intro m; simp [applyCallbacks]
  | cons x xs ih =>
    intro m
    have h := ih (update_metrics m x)
    simp only [applyCallbacks, List.foldl_cons] at h ⊢
    rw [h]
    simp [update_metrics, List.sum_cons]
    omega

theorem excel_placements_empty_iff (data : List DataFrame) :
    ((data.foldl excelLoop
        { placements := [], callbacks := [], startrow := 0, total := 0 }).placements.isEmpty = true)
      ↔ nonEmptyChunks data = [] := by
  have h := excel_foldl_placements_length data
    { placements := [], callbacks := [], startrow := 0, total := 0 }
  simp only [List.length_nil, Nat.zero_add] at h
  rw [List.isEmpty_iff]
  constructor
  · intro hpl
    have hlen : (nonEmptyChunks data).length = 0 := by rw [← h, hpl]; rfl
    exact List.length_eq_zero.mp hlen
  · intro hne
    rw [hne] at h
    exact List.length_eq_zero.mp h

theorem normalize_compression_ne_blank (c : Option String) (s : String)
    (h : normalize_compression c = some s) : (s == "") = false := by
  cases c with
  | none => simp [normalize_compression] at h
  | some v =>
    simp only [normalize_compression] at h
    by_cases hv : pyLower (pyStrip v) = "none" ∨ pyLower (pyStrip v) = "null"
        ∨ pyLower (pyStrip v) = ""
    · rw [if_pos hv] at h
      exact absurd h (by simp)
    · rw [if_neg hv] at h
      have hs : v = s := Option.some.inj h
      subst hs
      by_contra hb
      have hv2 : v = "" := by
        cases hb2 : v == "" with
        | true => exact eq_of_beq hb2
        | false => exact absurd hb2 hb
      subst hv2
      exact hv (Or.inr (Or.inr (by decide)))

theorem excel_guard_iff (compression : Option String) :
    (pyTruthy (normalize_compression compression)
        && !(normalize_compression compression == some "infer")) = true
      ↔ ¬(normalize_compression compression = none
            ∨ normalize_compression compression = some "infer") := by
  cases hn : normalize_compression compression with
  | none => simp [pyTruthy]
  | some s =>
    have hs := normalize_compression_ne_blank compression s hn
    simp [pyTruthy, hs]

theorem channel_update_ok (o : Observer) (h : o.isChannel = true) :
    ∃ b, o.update = Except.ok b := by
  cases o with
  | base => simp [Observer.isChannel] at h
  | email cc ok =>
    cases cc <;> cases ok <;> exact ⟨_, rfl⟩
  | telegram cc ok =>
    cases cc <;> cases ok <;> exact ⟨_, rfl⟩

theorem notify_channels (obs : List Observer) (h : ∀ o ∈ obs, o.isChannel = true) :
    (NotificationSubject.notify obs).raised = none
      ∧ (NotificationSubject.notify obs).invoked = obs := by
  induction obs with
  | nil => exact ⟨rfl, rfl⟩
  | cons o os ih =>
    obtain ⟨b, hb⟩ := channel_update_ok o (h o (List.mem_cons_self o os))
    have hrest := ih (fun x hx => h x (List.mem_cons_of_mem o hx))
    simp only [NotificationSubject.notify, hb]
    exact ⟨hrest.1, by rw [hrest.2]⟩

theorem csv_save_callbacks (data : List DataFrame) (fp : String) (comp : Option String)
    (fs0 : Option (List (List String))) :
    (CsvSaver.save data fp comp fs0).callbacks = chunkLens data := by
  simpa [CsvSaver.save] using csv_foldl_callbacks data
    { file := none, mode := "w", header := true, callbacks := [], total := 0 }

theorem csv_save_total (data : List DataFrame) (fp : String) (comp : Option String)
    (fs0 : Option (List (List String))) :
    (CsvSaver.save data fp comp fs0).total = totalRows data := by
  simpa [CsvSaver.save] using csv_foldl_total data
    { file := none, mode := "w", header := true, callbacks := [], total := 0 }

theorem json_save_callbacks (data : List DataFrame) (fp : String) (comp : Option String)
    (fs0 : Option (List (List String))) :
    (JsonSaver.save data fp comp fs0).callbacks = chunkLens data := by
  simpa [JsonSaver.save] using json_foldl_callbacks data
    { file := fs0, mode := "w", callbacks := [], total := 0 }

theorem json_save_total (data : List DataFrame) (fp : String) (comp : Option String)
    (fs0 : Option (List (List String))) :
    (JsonSaver.save data fp comp fs0).total = totalRows data := by
  simpa [JsonSaver.save] using json_foldl_total data
    { file := fs0, mode := "w", callbacks := [], total := 0 }

theorem parquet_save_callbacks (data : List DataFrame) (fp : String) (comp : Option String)
    (fs0 : Option DataFrame) :
    (ParquetSaver.save data fp comp fs0).callbacks = chunkLens data := by
  simpa [ParquetSaver.save] using parquet_foldl_callbacks fp data
    { file := fs0, writes := [], callbacks := [], total := 0 }

theorem parquet_save_total (data : List DataFrame) (fp : String) (comp : Option String)
    (fs0 : Option DataFrame) :
    (ParquetSaver.save data fp comp fs0).total = totalRows data := by
  simpa [ParquetSaver.save] using parquet_foldl_total fp data
    { file := fs0, writes := [], callbacks := [], total := 0 }

theorem excel_save_guard (data : List DataFrame) (fp : String) (comp : Option String)
    (fs0 : Option ExcelFile)
    (hg : (pyTruthy (normalize_compression comp)
        && !(normalize_compression comp == some "infer")) = true) :
    ExcelSaver.save data fp comp fs0 =
      { raised := some "Excel format doesn't support compression"
        file := fs0, callbacks := [], totalReturned := none } := by
  simp [ExcelSaver.save, hg]

theorem excel_save_sheetless (data : List DataFrame) (fp : String) (comp : Option String)
    (fs0 : Option ExcelFile)
    (hg : (pyTruthy (normalize_compression comp)
        && !(normalize_compression comp == some "infer")) = false)
    (hempty : nonEmptyChunks data = []) :
    ExcelSaver.save data fp comp fs0 =
      { raised := some "At least one sheet must be visible"
        file := some ExcelFile.emptyHandle
        callbacks := [], totalReturned := none } := by
  have hpl := (excel_placements_empty_iff data).mpr hempty
  have hchunk : chunkLens data = [] := by simp [chunkLens, hempty]
  have hcb := excel_foldl_callbacks data
    { placements := [], callbacks := [], startrow := 0, total := 0 }
  rw [hchunk] at hcb
  simp only [List.append_nil] at hcb
  simp [ExcelSaver.save, hg, hpl, hcb]

theorem excel_save_ok (data : List DataFrame) (fp : String) (comp : Option String)
    (fs0 : Option ExcelFile)
    (hg : (pyTruthy (normalize_compression comp)
        && !(normalize_compression comp == some "infer")) = false)
    (hne : nonEmptyChunks data ≠ []) :
    ExcelSaver.save data fp comp fs0 =
      { raised := none
        file := some (ExcelFile.workbook
          (data.foldl excelLoop
            { placements := [], callbacks := [], startrow := 0, total := 0 }).placements)
        callbacks := chunkLens data
        totalReturned := some (totalRows data) } := by
  have hpl : ((data.foldl excelLoop
      { placements := [], callbacks := [], startrow := 0, total := 0 }).placements.isEmpty)
        = false := by
    cases hp : ((data.foldl excelLoop
        { placements := [], callbacks := [], startrow := 0, total := 0 }).placements.isEmpty) with
    | true => exact absurd ((excel_placements_empty_iff data).mp hp) hne
    | false => rfl
  have hcb := excel_foldl_callbacks data
    { placements := [], callbacks := [], startrow := 0, total := 0 }
  have ht := excel_foldl_total data
    { placements := [], callbacks := [], startrow := 0, total := 0 }
  simp only [List.nil_append] at hcb
  simp only [Nat.zero_add] at ht
  simp [ExcelSaver.save, hg, hpl, hcb, ht]

/-! ## Claim theorems -/

/-- C4 counterexample: with a load failure in flight, a failure raised inside
the reporting step (whose error_handler re-raises) leaves the finally block
of run, replaces the load error as the result the caller observes, and skips
the metrics logging -- so the reporting step does mask the original outcome,
contrary to the claim. -/
theorem c4_counterexample :
    (ETLBase.run (Except.error "Ошибка загрузки данных")
        (Except.error "Ошибка отправки отчета")).result
      = Except.error "Ошибка отправки отчета"
    ∧ (ETLBase.run (Except.error "Ошибка загрузки данных")
        (Except.error "Ошибка отправки отчета")).result
      ≠ Except.error "Ошибка загрузки данных"
    ∧ (ETLBase.run (Except.error "Ошибка загрузки данных")
        (Except.error "Ошибка отправки отчета")).metricsLogged = false := by
  decide

/-- C4 (amended): the reporting step is attempted on every exit path of run,
and when reporting does not raise, the metrics are logged and the caller
observes the outcome of the try block unchanged; but when reporting raises,
its exception is what the caller observes (replacing the load outcome) and
the metrics logging is skipped. -/
theorem c4_amended (body sendReport : Except String Unit) :
    (ETLBase.run body sendReport).reportAttempted = true
      ∧ (ETLBase.run body sendReport).metricsLogged
          = (match sendReport with | .ok _ => true | .error _ => false)
      ∧ (ETLBase.run body sendReport).result
          = (match sendReport with | .error e => Except.error e | .ok _ => body) := by
  cases sendReport <;> cases body <;> exact ⟨rfl, rfl, rfl⟩

/-- C5: notify invokes the update of every attached channel handler in
attachment order; the channel handlers (email, Telegram) validate their own
configuration and catch their own delivery failures, returning a boolean
instead of raising -- in particular an incompletely configured channel
returns False -- so no failure of a channel handler propagates out of notify
or prevents the remaining handlers from running. -/
theorem c5_notify_channels (obs : List Observer)
    (h : ∀ o ∈ obs, o.isChannel = true) :
    (NotificationSubject.notify obs).raised = none
      ∧ (NotificationSubject.notify obs).invoked = obs
      ∧ (∀ sendOk, (Observer.email false sendOk).update = Except.ok false)
      ∧ (∀ sendOk, (Observer.telegram false sendOk).update = Except.ok false) := by
  refine ⟨(notify_channels obs h).1, (notify_channels obs h).2, ?_, ?_⟩ <;>
    intro s <;> cases s <;> rfl

/-- C5 witness: two attached channels, the first with incomplete
configuration: notify raises nothing and still invokes both handlers in
attachment order. -/
theorem c5_notify_channels_witness :
    (NotificationSubject.notify [Observer.email false true, Observer.telegram true true]).raised
        = none
      ∧ (NotificationSubject.notify
          [Observer.email false true, Observer.telegram true true]).invoked
        = [Observer.email false true, Observer.telegram true true] := by
  have h := c5_notify_channels [Observer.email false true, Observer.telegram true true]
    (by decide)
  exact ⟨h.1, h.2.1⟩

/-- C7: the delimited-text strategy writes the column header exactly once,
with the first non-empty batch, and appends each later non-empty batch in
order without repeating the header: whenever the sequence has a first
non-empty batch `c`, the final file is exactly the header line `c.cols`
followed by the data rows of all non-empty batches in input order, and the
callback trace is one entry per non-empty batch. -/
theorem c7_csv_header_once (data : List DataFrame) (fp : String) (comp : Option String)
    (fs0 : Option (List (List String))) (c : DataFrame) (cs : List DataFrame)
    (h : nonEmptyChunks data = c :: cs) :
    (CsvSaver.save data fp comp fs0).file = some (c.cols :: concatRows data)
      ∧ (CsvSaver.save data fp comp fs0).callbacks = chunkLens data := by
  constructor
  · simpa [CsvSaver.save] using csv_foldl_file_init data c cs h
  · simpa [CsvSaver.save] using csv_foldl_callbacks data
      { file := none, mode := "w", header := true, callbacks := [], total := 0 }

/-- C7 witness: the spec scenario -- two one-row batches produce one header
line followed by the two data rows in input order, with one callback per
batch. -/
theorem c7_csv_header_once_witness :
    (CsvSaver.save [dfA, dfB] "export.csv" none none).file
        = some [["id", "name"], ["1", "a"], ["2", "b"]]
      ∧ (CsvSaver.save [dfA, dfB] "export.csv" none none).callbacks = [1, 1] := by
  have h := c7_csv_header_once [dfA, dfB] "export.csv" none none dfA [dfB] (by decide)
  exact ⟨h.1.trans (by decide), h.2.trans (by decide)⟩

/-- C8: the code contradicts the claim at two one-row batches.  The second
batch is placed at start row 1 (the source advances the offset by the row
count only, ignoring the header row each to_excel call writes), so the
second batch writes its header into cell (1,0) -- the very cell holding the
first batch's data row -- overwriting it. -/
theorem c8_overlap_at_failing_input :
    (ExcelSaver.save [dfA, dfB] "export.xlsx" none none).file
        = some (ExcelFile.workbook [(0, dfA), (1, dfB)])
      ∧ (1, 0) ∈ excelCells 0 dfA
      ∧ (1, 0) ∈ excelCells 1 dfB := by
  decide

/-- C9: the columnar-binary strategy calls the single-shot write primitive
exactly once per non-empty batch, every time against the same destination
path, and returns the sum of the row counts of all non-empty batches -- while
the destination file afterwards holds only what the final single-shot write
put there (the last non-empty batch), not the returned total. -/
theorem c9_parquet_single_shot (data : List DataFrame) (fp : String)
    (comp : Option String) (fs0 : Option DataFrame) :
    (ParquetSaver.save data fp comp fs0).writes
        = (nonEmptyChunks data).map (fun c => (fp, c))
      ∧ (ParquetSaver.save data fp comp fs0).total = totalRows data
      ∧ (ParquetSaver.save data fp comp fs0).file
          = (match nonEmptyChunks data with
             | [] => fs0
             | c :: cs => (c :: cs).getLast?) := by
  refine ⟨?_, ?_, ?_⟩
  · simpa [ParquetSaver.save] using parquet_foldl_writes fp data
      { file := fs0, writes := [], callbacks := [], total := 0 }
  · simpa [ParquetSaver.save] using parquet_foldl_total fp data
      { file := fs0, writes := [], callbacks := [], total := 0 }
  · cases hne : nonEmptyChunks data with
    | nil =>
      simp only [ParquetSaver.save]
      rw [parquet_foldl_all_empty fp data hne]
    | cons c cs =>
      simp only [ParquetSaver.save]
      rw [parquet_foldl_file fp data c cs hne]

/-- C10: the metrics_callback parameter of ETLBase.load is never read: the
strategy always receives the orchestrator's own _update_metrics, so the load
outcome is identical for any two caller-supplied callbacks, and the metrics
after load are exactly the internal update applied once per callback
invocation of the strategy. -/
theorem c10_caller_callback_ignored (fmt : Format) (data : List DataFrame)
    (fp : String) (comp : Option String) (m0 : Metrics)
    (cb1 cb2 : Option (Nat → Metrics → Metrics)) :
    ETLBase.load fmt data fp comp m0 cb1 = ETLBase.load fmt data fp comp m0 cb2
      ∧ (ETLBase.load fmt data fp comp m0 cb1).metrics
          = applyCallbacks m0 (strategyCallbacks fmt data fp comp) := by
  cases fmt <;> exact ⟨rfl, rfl⟩

/-- C1 counterexample: a spreadsheet run whose extraction yields zero batches
does not raise the no-data error -- the writer session, having created the
destination file on open and holding zero sheets, raises the spreadsheet
library error on close instead -- and a file (the empty handle the writer
opened) does remain addressable at the destination path. -/
theorem c1_counterexample :
    (ETLBase.load Format.xlsx [] "export_01.01.2025_00-00-00.xlsx" none
        { rows_processed := 0, memory_samples := 0 } none).raised
      = some "At least one sheet must be visible"
    ∧ (ETLBase.load Format.xlsx [] "export_01.01.2025_00-00-00.xlsx" none
        { rows_processed := 0, memory_samples := 0 } none).raised
      ≠ some noDataError
    ∧ (ETLBase.load Format.xlsx [] "export_01.01.2025_00-00-00.xlsx" none
        { rows_processed := 0, memory_samples := 0 } none).file
      ≠ none := by
  decide

/-- C1 (amended): for a run with zero batches or only empty batches, the
delimited-text, line-delimited and columnar strategies return 0, load raises
the fatal no-data error, and no file remains at the destination; the
spreadsheet strategy (given an acceptable compression value) instead
propagates the writer close error "At least one sheet must be visible" and
leaves the empty file its writer created at the destination path. -/
theorem c1_amended (fmt : Format) (data : List DataFrame) (fp : String)
    (comp : Option String) (m0 : Metrics) (cb : Option (Nat → Metrics → Metrics))
    (hempty : nonEmptyChunks data = [])
    (hcomp : fmt = Format.xlsx →
      normalize_compression comp = none ∨ normalize_compression comp = some "infer") :
    (ETLBase.load fmt data fp comp m0 cb).raised
        = (if fmt = Format.xlsx then some "At least one sheet must be visible"
           else some noDataError)
      ∧ (ETLBase.load fmt data fp comp m0 cb).file
        = (if fmt = Format.xlsx then some (FileData.xlsxF ExcelFile.emptyHandle)
           else none) := by
  cases fmt with
  | csv =>
    have h1 := csv_foldl_all_empty data hempty
      { file := none, mode := "w", header := true, callbacks := [], total := 0 }
    simp [ETLBase.load, CsvSaver.save, h1]
  | xlsx =>
    have hg : (pyTruthy (normalize_compression comp)
        && !(normalize_compression comp == some "infer")) = false := by
      rcases hcomp rfl with hc | hc <;> rw [hc] <;> decide
    simp [ETLBase.load, excel_save_sheetless data fp comp none hg hempty]
  | json =>
    have h1 := json_foldl_all_empty data hempty
      { file := none, mode := "w", callbacks := [], total := 0 }
    simp [ETLBase.load, JsonSaver.save, h1]
  | parquet =>
    have h1 := parquet_foldl_all_empty fp data hempty
      { file := none, writes := [], callbacks := [], total := 0 }
    simp [ETLBase.load, ParquetSaver.save, h1]

/-- C1 witness: a spreadsheet run over one empty batch, with no compression:
load propagates the writer close error and the empty file remains. -/
theorem c1_amended_witness :
    (ETLBase.load Format.xlsx [dfEmpty] "export.xlsx" none
        { rows_processed := 0, memory_samples := 0 } none).raised
      = some "At least one sheet must be visible"
    ∧ (ETLBase.load Format.xlsx [dfEmpty] "export.xlsx" none
        { rows_processed := 0, memory_samples := 0 } none).file
      = some (FileData.xlsxF ExcelFile.emptyHandle) := by
  have h := c1_amended Format.xlsx [dfEmpty] "export.xlsx" none
    { rows_processed := 0, memory_samples := 0 } none (by decide)
    (fun _ => Or.inl (by decide))
  exact ⟨h.1.trans (by decide), h.2.trans (by decide)⟩

/-- C2 counterexample: the spreadsheet strategy on a sequence with zero
non-empty batches (n = 0) raises on the writer close instead of returning 0,
so "save returns n" fails there. -/
theorem c2_counterexample :
    strategyReturn Format.xlsx [] "export.xlsx" none = none
      ∧ (ExcelSaver.save [] "export.xlsx" none none).raised
        = some "At least one sheet must be visible" := by
  decide

/-- C2 (amended): for every batch sequence whose non-empty batches hold n
rows in total, each strategy invokes the metrics callback exactly once per
non-empty batch with that batch's row count and never for an empty batch,
returns n, and leaves the rows-processed counter advanced by n -- except
that the spreadsheet strategy requires an acceptable compression value and
at least one non-empty batch (with none, its writer session raises on close
instead of returning 0). -/
theorem c2_amended (fmt : Format) (data : List DataFrame) (fp : String)
    (comp : Option String) (m0 : Metrics) (cb : Option (Nat → Metrics → Metrics))
    (hx : fmt = Format.xlsx →
      (normalize_compression comp = none ∨ normalize_compression comp = some "infer")
        ∧ nonEmptyChunks data ≠ []) :
    strategyCallbacks fmt data fp comp = chunkLens data
      ∧ strategyReturn fmt data fp comp = some (totalRows data)
      ∧ (ETLBase.load fmt data fp comp m0 cb).metrics.rows_processed
          = m0.rows_processed + totalRows data := by
  cases fmt with
  | csv =>
    refine ⟨csv_save_callbacks data fp comp none, ?_, ?_⟩
    · simp only [strategyReturn]
      rw [csv_save_total data fp comp none]
    · simp only [ETLBase.load]
      rw [csv_save_callbacks data fp comp none, applyCallbacks_rows]
      rfl
  | xlsx =>
    obtain ⟨hok, hne⟩ := hx rfl
    have hg : (pyTruthy (normalize_compression comp)
        && !(normalize_compression comp == some "infer")) = false := by
      rcases hok with hc | hc <;> rw [hc] <;> decide
    have hsave := excel_save_ok data fp comp none hg hne
    refine ⟨?_, ?_, ?_⟩
    · simp only [strategyCallbacks]
      rw [hsave]
    · simp only [strategyReturn]
      rw [hsave]
    · simp only [ETLBase.load]
      rw [hsave]
      simp [applyCallbacks_rows, totalRows]
  | json =>
    refine ⟨json_save_callbacks data fp comp none, ?_, ?_⟩
    · simp only [strategyReturn]
      rw [json_save_total data fp comp none]
    · simp only [ETLBase.load]
      rw [json_save_callbacks data fp comp none, applyCallbacks_rows]
      rfl
  | parquet =>
    refine ⟨parquet_save_callbacks data fp comp none, ?_, ?_⟩
    · simp only [strategyReturn]
      rw [parquet_save_total data fp comp none]
    · simp only [ETLBase.load]
      rw [parquet_save_callbacks data fp comp none, applyCallbacks_rows]
      rfl

/-- C2 witness: the spreadsheet strategy over batches of 1, 0 and 1 rows,
uncompressed: one callback per non-empty batch, return value 2, counter 2. -/
theorem c2_amended_witness :
    strategyCallbacks Format.xlsx [dfA, dfEmpty, dfB] "export.xlsx" none = [1, 1]
      ∧ strategyReturn Format.xlsx [dfA, dfEmpty, dfB] "export.xlsx" none = some 2
      ∧ (ETLBase.load Format.xlsx [dfA, dfEmpty, dfB] "export.xlsx" none
          { rows_processed := 0, memory_samples := 0 } none).metrics.rows_processed = 2 := by
  have h := c2_amended Format.xlsx [dfA, dfEmpty, dfB] "export.xlsx" none
    { rows_processed := 0, memory_samples := 0 } none
    (fun _ => ⟨Or.inl (by decide), by decide⟩)
  exact ⟨h.1.trans (by decide), h.2.1.trans (by decide), h.2.2.trans (by decide)⟩

/-- C3: the spreadsheet strategy raises its configuration error exactly when
the normalized compression value is neither None nor "infer"; when it
raises, it does so before the writer is created, leaving the destination
untouched, performing no write and invoking no callback; with a
normalized-to-none or "infer" value the configuration check passes and save
proceeds into the write phase without raising (on a sequence with a
non-empty batch, it raises nothing at all). -/
theorem c3_compression_guard (data : List DataFrame) (fp : String)
    (comp : Option String) (fs0 : Option ExcelFile) :
    ((ExcelSaver.save data fp comp fs0).raised
        = some "Excel format doesn't support compression"
      ↔ ¬(normalize_compression comp = none ∨ normalize_compression comp = some "infer"))
    ∧ (¬(normalize_compression comp = none ∨ normalize_compression comp = some "infer") →
        ExcelSaver.save data fp comp fs0 =
          { raised := some "Excel format doesn't support compression"
            file := fs0, callbacks := [], totalReturned := none })
    ∧ ((normalize_compression comp = none ∨ normalize_compression comp = some "infer") →
        nonEmptyChunks data ≠ [] →
        (ExcelSaver.save data fp comp fs0).raised = none) := by
  cases hg : (pyTruthy (normalize_compression comp)
      && !(normalize_compression comp == some "infer")) with
  | true =>
    have hp := (excel_guard_iff comp).mp hg
    have hsave := excel_save_guard data fp comp fs0 hg
    refine ⟨⟨fun _ => hp, fun _ => by rw [hsave]⟩, fun _ => hsave, fun hok _ => absurd hok hp⟩
  | false =>
    have hp : normalize_compression comp = none
        ∨ normalize_compression comp = some "infer" := by
      by_contra hq
      have h2 := (excel_guard_iff comp).mpr hq
      rw [hg] at h2
      exact Bool.false_ne_true h2
    refine ⟨⟨?_, fun hq => absurd hp hq⟩, fun hq => absurd hp hq, ?_⟩
    · intro hr
      exfalso
      cases hemp : nonEmptyChunks data with
      | nil =>
        rw [excel_save_sheetless data fp comp fs0 hg hemp] at hr
        exact absurd hr (by decide)
      | cons c cs =>
        rw [excel_save_ok data fp comp fs0 hg (by rw [hemp]; simp)] at hr
        exact absurd hr (by simp)
    · intro _ hne
      rw [excel_save_ok data fp comp fs0 hg hne]

/-- C3 witness: with compression "gzip" the strategy raises the
configuration error and the pre-existing destination state is untouched;
with compression None on a non-empty batch it raises nothing. -/
theorem c3_compression_guard_witness :
    (ExcelSaver.save [dfA] "export.xlsx" (some "gzip") none).raised
        = some "Excel format doesn't support compression"
      ∧ (ExcelSaver.save [dfA] "export.xlsx" (some "gzip") none).file = none
      ∧ (ExcelSaver.save [dfA] "export.xlsx" none none).raised = none := by
  have h := c3_compression_guard [dfA] "export.xlsx" (some "gzip") none
  have h2 := c3_compression_guard [dfA] "export.xlsx" none none
  refine ⟨h.1.mpr (by decide), ?_, h2.2.2 (by decide) (by decide)⟩
  rw [h.2.1 (by decide)]

/-- C6 counterexample: the line-delimited strategy does not remove a
pre-existing file before writing begins: a second run whose only batch is
empty performs no write at all and leaves the first run's content at the
destination, so the file does not contain only the second run's data. -/
theorem c6_counterexample :
    (JsonSaver.save [dfEmpty] "export.json" none (some [["1", "a"]])).file
        = some [["1", "a"]]
      ∧ (ParquetSaver.save [dfEmpty] "export.parquet" none (some dfA)).file = some dfA := by
  decide

/-- C6 (amended): the delimited-text strategy removes any pre-existing file
up front (its outcome is independent of the prior destination state), and
the spreadsheet strategy truncates the destination when its writer opens
(same independence, given an acceptable compression value); the
line-delimited and columnar strategies remove nothing up front but overwrite
on their first write, so whenever the run writes at least one non-empty
batch the final file holds only that run's data -- a zero-row run, however,
leaves a pre-existing file untouched for those two strategies. -/
theorem c6_amended (data : List DataFrame) (fp : String) (comp : Option String) :
    (∀ fs0 fs0' : Option (List (List String)),
        CsvSaver.save data fp comp fs0 = CsvSaver.save data fp comp fs0')
      ∧ ((normalize_compression comp = none ∨ normalize_compression comp = some "infer") →
          ∀ fs0 fs0' : Option ExcelFile,
            ExcelSaver.save data fp comp fs0 = ExcelSaver.save data fp comp fs0')
      ∧ (∀ (fs0 : Option (List (List String))) c cs, nonEmptyChunks data = c :: cs →
          (JsonSaver.save data fp comp fs0).file = some (concatRows data))
      ∧ (∀ (fs0 : Option DataFrame) c cs, nonEmptyChunks data = c :: cs →
          (ParquetSaver.save data fp comp fs0).file = (c :: cs).getLast?) := by
  refine ⟨fun fs0 fs0' => rfl, ?_, ?_, ?_⟩
  · intro hok fs0 fs0'
    have hg : (pyTruthy (normalize_compression comp)
        && !(normalize_compression comp == some "infer")) = false := by
      rcases hok with hc | hc <;> rw [hc] <;> decide
    simp [ExcelSaver.save, hg]
  · intro fs0 c cs h
    simpa [JsonSaver.save] using json_foldl_file_init data fs0 c cs h
  · intro fs0 c cs h
    simpa [ParquetSaver.save] using parquet_foldl_file fp data c cs h
      { file := fs0, writes := [], callbacks := [], total := 0 }

/-- C6 witness: with two non-empty batches, a second run over a pre-existing
destination leaves only the second run's records (line-delimited) and the
last batch written (columnar). -/
theorem c6_amended_witness :
    (JsonSaver.save [dfA, dfB] "export.json" none (some [["0", "z"]])).file
        = some [["1", "a"], ["2", "b"]]
      ∧ (ParquetSaver.save [dfA, dfB] "export.parquet" none (some dfEmpty)).file
        = some dfB := by
  have h := c6_amended [dfA, dfB] "export.json" none
  have h2 := c6_amended [dfA, dfB] "export.parquet" none
  exact ⟨(h.2.2.1 (some [["0", "z"]]) dfA [dfB] (by decide)).trans (by decide),
    (h2.2.2.2 (some dfEmpty) dfA [dfB] (by decide)).trans (by decide)⟩

end FlexibleETL
